import Mathlib

/-!
# The release build tool (`tools/build_release/main.go`)

A shallow embedding of `getSettings`, `run` and `main`, and the properties of the
orchestration pipeline: which steps run, in what order, with which arguments, what
error is surfaced, and when the binary staging directory is removed.

Conventions of the embedding.

* A Go `error` is an `Option String`: `none` is `nil`, `some msg` is a non-nil error
  whose `Error()` text is `msg`. `errors.New(msg)` is `some msg`, and
  `fmt.Errorf("step: %v", err)` is `some ("step: " ++ msg)`.
* The command-line flags (`*fVersion`, `*fCommit`, `*fOutputDir`, `*fRPM`) are read
  from a `Flags` value: the state after `flag.Parse()`.
* `checkForTools`, `buildBinaries`, `packageTarball`, `packageDeb` and `packageRpm`
  are declared in other files of the package, and `build.Default` and `os.Getwd`
  come from the Go library. `run` is embedded over an `Env` that gives the result of
  each of them for the arguments it is called with. `run` calls each at most once,
  so every execution of the program is the execution under some `Env`.
* `run` returns, next to its error, the trace of the calls it made, in order, each
  with its arguments and its result.
-/

namespace BuildRelease

/-- The values of the command-line flags after `flag.Parse()`. -/
structure Flags where
  fVersion : String
  fCommit : String
  fOutputDir : String
  fRPM : Bool
  deriving DecidableEq, Repr

/-- The world outside `main.go`: the Go build environment, the working directory,
and the outcome of every step implemented elsewhere in the package. -/
structure Env where
  /-- The value of `build.Default.GOOS`. -/
  GOOS : String
  /-- The value of `build.Default.GOARCH`. -/
  GOARCH : String
  /-- The pair `os.Getwd()` returns. -/
  getwd : String × Option String
  /-- The error `checkForTools()` returns. -/
  checkForTools : Option String
  /-- The pair `buildBinaries(version, commit, osys, arch)` returns. -/
  buildBinaries : String → String → String → String → String × Option String
  /-- The error `packageTarball(binDir, version, osys, arch, outputDir)` returns. -/
  packageTarball : String → String → String → String → String → Option String
  /-- The error `packageDeb(binDir, version, osys, arch, outputDir)` returns. -/
  packageDeb : String → String → String → String → String → Option String
  /-- The error `packageRpm(binDir, version, osys, arch, outputDir)` returns. -/
  packageRpm : String → String → String → String → String → Option String

/-- The six named results of `getSettings`. A result that was not assigned before
the function returned holds the zero value of its type. -/
structure Settings where
  version : String
  commit : String
  osys : String
  arch : String
  outputDir : String
  err : Option String
  deriving DecidableEq, Repr

/-- Embedding of `getSettings` (main.go, lines 37-66). -/
def getSettings (f : Flags) (env : Env) : Settings :=
  if f.fVersion = "" then
    ⟨"", "", "", "", "", some "You must set --version."⟩
  else if f.fCommit = "" then
    ⟨f.fVersion, "", "", "", "", some "You must set --commit."⟩
  else if f.fOutputDir = "" then
    match env.getwd with
    | (wd, some e) => ⟨f.fVersion, f.fCommit, env.GOOS, env.GOARCH, wd, some ("Getwd: " ++ e)⟩
    | (wd, none) => ⟨f.fVersion, f.fCommit, env.GOOS, env.GOARCH, wd, none⟩
  else
    ⟨f.fVersion, f.fCommit, env.GOOS, env.GOARCH, f.fOutputDir, none⟩

/-- The steps of the pipeline, in the order in which `run` reaches them. -/
inductive Step where
  | checkForTools
  | getSettings
  | buildBinaries
  | packageTarball
  | packageDeb
  | packageRpm
  deriving DecidableEq, Repr

/-- The name of a step: the identifier of the function `run` calls for it. -/
def Step.name : Step → String
  | .checkForTools => "checkForTools"
  | .getSettings => "getSettings"
  | .buildBinaries => "buildBinaries"
  | .packageTarball => "packageTarball"
  | .packageDeb => "packageDeb"
  | .packageRpm => "packageRpm"

/-- The fixed order of the steps in the body of `run`. -/
def stepSequence : List Step :=
  [.checkForTools, .getSettings, .buildBinaries, .packageTarball, .packageDeb, .packageRpm]

/-- One call made by `run`: the callee, the arguments it was given and what it
returned. `removeAll` is the deferred `os.RemoveAll(binDir)`, whose result `run`
discards. -/
inductive Event where
  | checkForTools (err : Option String)
  | getSettings (result : Settings)
  | buildBinaries (version commit osys arch : String) (dir : String) (err : Option String)
  | packageTarball (binDir version osys arch outputDir : String) (err : Option String)
  | packageDeb (binDir version osys arch outputDir : String) (err : Option String)
  | packageRpm (binDir version osys arch outputDir : String) (err : Option String)
  | removeAll (path : String)
  deriving DecidableEq, Repr

/-- The step an event is a call of; `none` for the deferred removal. -/
def Event.step : Event → Option Step
  | .checkForTools _ => some .checkForTools
  | .getSettings _ => some .getSettings
  | .buildBinaries .. => some .buildBinaries
  | .packageTarball .. => some .packageTarball
  | .packageDeb .. => some .packageDeb
  | .packageRpm .. => some .packageRpm
  | .removeAll _ => none

/-- The error the call returned to `run`; `none` for the deferred removal, whose
result is dropped. -/
def Event.err : Event → Option String
  | .checkForTools e => e
  | .getSettings s => s.err
  | .buildBinaries _ _ _ _ _ e => e
  | .packageTarball _ _ _ _ _ e => e
  | .packageDeb _ _ _ _ _ e => e
  | .packageRpm _ _ _ _ _ e => e
  | .removeAll _ => none

/-- What an execution of `run` (or of a part of it) did: the calls it made, oldest
first, and the error it returned. -/
structure RunResult where
  trace : List Event
  err : Option String
  deriving DecidableEq, Repr

/-- The part of `run` after `defer os.RemoveAll(binDir)` (main.go, lines 94-118): the
tarball, then on linux the .deb and, when `--rpm` is set, the .rpm. -/
def packageAll (f : Flags) (env : Env) (binDir version osys arch outputDir : String) :
    RunResult :=
  match env.packageTarball binDir version osys arch outputDir with
  | some e =>
    ⟨[.packageTarball binDir version osys arch outputDir (some e)],
      some ("packageTarball: " ++ e)⟩
  | none =>
    if osys = "linux" then
      match env.packageDeb binDir version osys arch f.fOutputDir with
      | some e =>
        ⟨[.packageTarball binDir version osys arch outputDir none,
          .packageDeb binDir version osys arch f.fOutputDir (some e)],
          some ("packageDeb: " ++ e)⟩
      | none =>
        if f.fRPM then
          match env.packageRpm binDir version osys arch f.fOutputDir with
          | some e =>
            ⟨[.packageTarball binDir version osys arch outputDir none,
              .packageDeb binDir version osys arch f.fOutputDir none,
              .packageRpm binDir version osys arch f.fOutputDir (some e)],
              some ("packageDeb: " ++ e)⟩
          | none =>
            ⟨[.packageTarball binDir version osys arch outputDir none,
              .packageDeb binDir version osys arch f.fOutputDir none,
              .packageRpm binDir version osys arch f.fOutputDir none],
              none⟩
        else
          ⟨[.packageTarball binDir version osys arch outputDir none,
            .packageDeb binDir version osys arch f.fOutputDir none],
            none⟩
    else
      ⟨[.packageTarball binDir version osys arch outputDir none], none⟩

/-- Embedding of `run` (main.go, lines 72-119). The removal deferred at line 92 runs
when the function returns, on every path through the lines after it. -/
def run (f : Flags) (env : Env) : RunResult :=
  match env.checkForTools with
  | some e => ⟨[.checkForTools (some e)], some e⟩
  | none =>
    let s := getSettings f env
    match s.err with
    | some e => ⟨[.checkForTools none, .getSettings s], some e⟩
    | none =>
      match env.buildBinaries s.version s.commit s.osys s.arch with
      | (binDir, some e) =>
        ⟨[.checkForTools none, .getSettings s,
          .buildBinaries s.version s.commit s.osys s.arch binDir (some e)],
          some ("buildBinaries: " ++ e)⟩
      | (binDir, none) =>
        let r := packageAll f env binDir s.version s.osys s.arch s.outputDir
        ⟨[.checkForTools none, .getSettings s,
          .buildBinaries s.version s.commit s.osys s.arch binDir none]
          ++ r.trace ++ [.removeAll binDir],
          r.err⟩

/-- What the process leaves behind: the text written to the error stream and the
exit status. -/
structure ProcessResult where
  stderr : String
  exitStatus : Nat
  deriving DecidableEq, Repr

/-- Embedding of `main` (main.go, lines 121-130), from the point where the flags are
parsed: `fmt.Fprintln(os.Stderr, err)` writes the error text and a newline, and
`os.Exit(1)` ends the process; a `main` that returns ends it with status 0. -/
def main (f : Flags) (env : Env) : ProcessResult :=
  match (run f env).err with
  | some e => ⟨e ++ "\n", 1⟩
  | none => ⟨"", 0⟩

/-! ## Concrete inputs -/

/-- Flags of a full release: `--version=1.2.3 --commit=abc123 --rpm`, no
`--output_dir`. -/
def releaseFlags : Flags := ⟨"1.2.3", "abc123", "", true⟩

/-- A linux/amd64 environment in which every step succeeds; the working directory is
`/home/user` and the staging directory is `/tmp/stage`. -/
def linuxEnv : Env where
  GOOS := "linux"
  GOARCH := "amd64"
  getwd := ("/home/user", none)
  checkForTools := none
  buildBinaries := fun _ _ _ _ => ("/tmp/stage", none)
  packageTarball := fun _ _ _ _ _ => none
  packageDeb := fun _ _ _ _ _ => none
  packageRpm := fun _ _ _ _ _ => none


/-- The flags of `releaseFlags` without `--version`. -/
def noVersionFlags : Flags := ⟨"", "abc123", "", true⟩

/-- The environment `linuxEnv` with a required tool missing from the path. -/
def noToolsEnv : Env := { linuxEnv with checkForTools := some "fpm not found" }

/-- The environment `linuxEnv` with a build that fails after the staging directory
was created. -/
def buildFailsEnv : Env :=
  { linuxEnv with buildBinaries := fun _ _ _ _ => ("/tmp/stage", some "exit status 1") }

/-- The environment `linuxEnv` with a .deb step that fails with the diagnostic `e`. -/
def debFailsEnv (e : String) : Env :=
  { linuxEnv with packageDeb := fun _ _ _ _ _ => some e }

/-- The environment `linuxEnv` with a .rpm step that fails with the diagnostic `e`. -/
def rpmFailsEnv (e : String) : Env :=
  { linuxEnv with packageRpm := fun _ _ _ _ _ => some e }

/-! ## Helper lemmas -/

/-- A text is itself with nothing in front of it. -/
theorem empty_append_text (e : String) : e = "" ++ e := by
  apply String.ext
  simp

/-- A successful `getSettings` returns the build environment's operating system. -/
theorem getSettings_osys_of_ok (f : Flags) (env : Env) (h : (getSettings f env).err = none) :
    (getSettings f env).osys = env.GOOS := by
  unfold getSettings at h ⊢
  split
  · simp_all
  · split
    · simp_all
    · split
      · split <;> simp_all
      · rfl

/-- With `--version` or `--commit` empty, `getSettings` fails, with the message for
the first flag that is missing. -/
theorem getSettings_err_of_missing (f : Flags) (env : Env)
    (h : f.fVersion = "" ∨ f.fCommit = "") :
    (getSettings f env).err =
      some (if f.fVersion = "" then "You must set --version." else "You must set --commit.") := by
  unfold getSettings
  by_cases hv : f.fVersion = ""
  · simp [hv]
  · have hc : f.fCommit = "" := h.resolve_left hv
    simp [hv, hc]

/-- The arguments of the packaging calls of any run: each gets the directory the
build returned and the version, osys and arch of `getSettings`; the tarball step gets
the outputDir of `getSettings`, the .deb and .rpm steps get the `--output_dir` flag. -/
theorem packaging_call_arguments (f : Flags) (env : Env) :
    ∀ ev ∈ (run f env).trace, ∀ binDir version osys arch outputDir err,
      (ev = Event.packageTarball binDir version osys arch outputDir err ∨
        ev = Event.packageDeb binDir version osys arch outputDir err ∨
        ev = Event.packageRpm binDir version osys arch outputDir err) →
      version = (getSettings f env).version ∧ osys = (getSettings f env).osys ∧
      arch = (getSettings f env).arch ∧
      (env.buildBinaries (getSettings f env).version (getSettings f env).commit
        (getSettings f env).osys (getSettings f env).arch).1 = binDir ∧
      outputDir = (match ev with
        | Event.packageTarball .. => (getSettings f env).outputDir
        | _ => f.fOutputDir) := by
  unfold run packageAll
  simp only []
  repeat' split
  all_goals simp_all

/-! ## Settings resolution -/

/-- C2: `getSettings` returns an error exactly when `--version` is empty, or
`--commit` is empty, or `--output_dir` is empty and `os.Getwd` fails; when it
succeeds, version and commit are the non-empty flag values, osys and arch are the
build environment's, and outputDir is `--output_dir` when that is non-empty and the
working directory otherwise. -/
theorem getSettings_error_iff_and_success (f : Flags) (env : Env) :
    ((getSettings f env).err ≠ none ↔
      (f.fVersion = "" ∨ f.fCommit = "" ∨ (f.fOutputDir = "" ∧ env.getwd.2 ≠ none))) ∧
    ((getSettings f env).err = none →
      (getSettings f env).version = f.fVersion ∧ (getSettings f env).version ≠ "" ∧
      (getSettings f env).commit = f.fCommit ∧ (getSettings f env).commit ≠ "" ∧
      (getSettings f env).osys = env.GOOS ∧ (getSettings f env).arch = env.GOARCH ∧
      (getSettings f env).outputDir =
        if f.fOutputDir = "" then env.getwd.1 else f.fOutputDir) := by
  unfold getSettings
  by_cases hv : f.fVersion = ""
  · simp [hv]
  · by_cases hc : f.fCommit = ""
    · simp [hv, hc]
    · by_cases ho : f.fOutputDir = ""
      · rcases hwd : env.getwd with ⟨wd, _ | e⟩ <;> simp [hv, hc, ho]
      · simp [hv, hc, ho]

/-- Witness for C2 with `--output_dir` omitted: the settings are those of the flags
and of the environment, and the output directory is the working directory. -/
theorem getSettings_error_iff_and_success_witness :
    (getSettings releaseFlags linuxEnv).err = none ∧
    (getSettings releaseFlags linuxEnv).version = "1.2.3" ∧
    (getSettings releaseFlags linuxEnv).commit = "abc123" ∧
    (getSettings releaseFlags linuxEnv).osys = "linux" ∧
    (getSettings releaseFlags linuxEnv).arch = "amd64" ∧
    (getSettings releaseFlags linuxEnv).outputDir = "/home/user" := by
  have h := (getSettings_error_iff_and_success releaseFlags linuxEnv).2 (by decide)
  obtain ⟨h1, -, h2, -, h3, h4, h5⟩ := h
  exact ⟨by decide, h1, h2, h3, h4, h5⟩

/-! ## The order of the steps and the first failure -/

/-- C7: the tool check is the first call of every run, and when it fails `run`
returns its error and calls nothing else: not `getSettings`, not `buildBinaries`, no
packaging step. -/
theorem run_tool_check_first (f : Flags) (env : Env) :
    (run f env).trace.head? = some (Event.checkForTools env.checkForTools) ∧
    ∀ e, env.checkForTools = some e →
      (run f env).err = some e ∧ (run f env).trace = [Event.checkForTools (some e)] := by
  unfold run
  simp only []
  repeat' split
  all_goals simp_all

/-- Witness for C7: with a tool missing, the run is the failed tool check alone. -/
theorem run_tool_check_first_witness :
    (run releaseFlags noToolsEnv).err = some "fpm not found" ∧
    (run releaseFlags noToolsEnv).trace = [Event.checkForTools (some "fpm not found")] :=
  (run_tool_check_first releaseFlags noToolsEnv).2 "fpm not found" rfl

/-- C8: the calls of a run follow the fixed sequence of steps, each at most once; a
call that returned an error is followed by no call of a step; a step is called only
when every call before it succeeded; and the error `run` returns is non-nil and ends
with the text of the error of the step that failed. -/
theorem first_failure_aborts_run (f : Flags) (env : Env) :
    ((run f env).trace.filterMap Event.step).Sublist stepSequence ∧
    (run f env).trace.Pairwise (fun a b => a.err ≠ none → b.step = none) ∧
    (run f env).trace.Pairwise (fun a b => b.step ≠ none → a.err = none) ∧
    (∀ ev ∈ (run f env).trace, ∀ e, ev.err = some e →
      ∃ p, (run f env).err = some (p ++ e)) := by
  unfold run packageAll
  simp only []
  repeat' split
  all_goals simp_all [Event.step, Event.err, stepSequence]
  · exact ⟨"", empty_append_text _⟩
  · exact ⟨"", empty_append_text _⟩
  · exact ⟨"buildBinaries: ", rfl⟩
  · exact ⟨"packageTarball: ", rfl⟩
  · exact ⟨"packageDeb: ", rfl⟩
  · exact ⟨"packageDeb: ", rfl⟩

/-- Witness for C8: when the .deb step fails, the .rpm step that `--rpm` asked for is
not called, only the deferred removal follows, and the error ends with the text of
the .deb step. -/
theorem first_failure_aborts_run_witness :
    (run releaseFlags (debFailsEnv "exit status 1")).trace =
      [Event.checkForTools none,
       Event.getSettings ⟨"1.2.3", "abc123", "linux", "amd64", "/home/user", none⟩,
       Event.buildBinaries "1.2.3" "abc123" "linux" "amd64" "/tmp/stage" none,
       Event.packageTarball "/tmp/stage" "1.2.3" "linux" "amd64" "/home/user" none,
       Event.packageDeb "/tmp/stage" "1.2.3" "linux" "amd64" "" (some "exit status 1"),
       Event.removeAll "/tmp/stage"] ∧
    ∃ p, (run releaseFlags (debFailsEnv "exit status 1")).err = some (p ++ "exit status 1") :=
  ⟨by decide,
    (first_failure_aborts_run releaseFlags (debFailsEnv "exit status 1")).2.2.2
      (Event.packageDeb "/tmp/stage" "1.2.3" "linux" "amd64" "" (some "exit status 1"))
      (by decide) "exit status 1" rfl⟩

/-! ## The staging directory -/

/-- C1, as stated, fails: the build step was reached and `buildBinaries` returned the
staging directory together with an error, and `run` returned without applying
`os.RemoveAll` to it. -/
theorem staging_dir_kept_when_build_fails :
    Event.buildBinaries "1.2.3" "abc123" "linux" "amd64" "/tmp/stage" (some "exit status 1")
      ∈ (run releaseFlags buildFailsEnv).trace ∧
    Event.removeAll "/tmp/stage" ∉ (run releaseFlags buildFailsEnv).trace := by
  decide

/-- C1, amended: in a run that reached `buildBinaries`, when the build succeeded the
last thing `run` does is `os.RemoveAll` on the directory the build returned, and it
does so once, whether the packaging steps succeed or fail; when the build failed,
`run` removes nothing. -/
theorem staging_dir_removed_iff_build_ok (f : Flags) (env : Env)
    (version commit osys arch dir : String) (err : Option String)
    (hreached : Event.buildBinaries version commit osys arch dir err ∈ (run f env).trace) :
    (err = none →
      (run f env).trace.getLast? = some (Event.removeAll dir) ∧
      (run f env).trace.count (Event.removeAll dir) = 1) ∧
    (err ≠ none → ∀ path, Event.removeAll path ∉ (run f env).trace) := by
  revert hreached
  unfold run packageAll
  simp only []
  repeat' split
  all_goals simp_all [List.count_cons]

/-- Witness for C1, amended: the .deb step fails after a successful build, and the
staging directory is removed at the end of the run. -/
theorem staging_dir_removed_iff_build_ok_witness :
    (run releaseFlags (debFailsEnv "exit status 1")).err ≠ none ∧
    (run releaseFlags (debFailsEnv "exit status 1")).trace.getLast?
      = some (Event.removeAll "/tmp/stage") ∧
    (run releaseFlags (debFailsEnv "exit status 1")).trace.count (Event.removeAll "/tmp/stage")
      = 1 :=
  ⟨by decide,
    (staging_dir_removed_iff_build_ok releaseFlags (debFailsEnv "exit status 1")
      "1.2.3" "abc123" "linux" "amd64" "/tmp/stage" none (by decide)).1 rfl⟩

/-! ## Which packaging steps run -/

/-- C5: when the tool check, the settings, the build and the tarball succeed, the
.deb step is called exactly when the target OS is "linux", and the .rpm step exactly
when the target OS is "linux", `--rpm` is set and the .deb step succeeded. -/
theorem deb_iff_linux_and_rpm_iff_flag (f : Flags) (env : Env) (binDir : String)
    (hTools : env.checkForTools = none)
    (hSettings : (getSettings f env).err = none)
    (hBuild : env.buildBinaries (getSettings f env).version (getSettings f env).commit
      (getSettings f env).osys (getSettings f env).arch = (binDir, none))
    (hTarball : env.packageTarball binDir (getSettings f env).version
      (getSettings f env).osys (getSettings f env).arch (getSettings f env).outputDir = none) :
    ((∃ ev ∈ (run f env).trace, ev.step = some Step.packageDeb) ↔ env.GOOS = "linux") ∧
    ((∃ ev ∈ (run f env).trace, ev.step = some Step.packageRpm) ↔
      (env.GOOS = "linux" ∧ f.fRPM = true ∧
        ∃ ev ∈ (run f env).trace, ev.step = some Step.packageDeb ∧ ev.err = none)) := by
  have hos := getSettings_osys_of_ok f env hSettings
  unfold run packageAll
  simp only [hTools, hSettings, hBuild, hTarball]
  rw [← hos]
  repeat' split
  all_goals simp_all [Event.step, Event.err]

/-- Witness for C5: on linux with `--rpm`, both the .deb and the .rpm step are
called. -/
theorem deb_iff_linux_and_rpm_iff_flag_witness :
    (∃ ev ∈ (run releaseFlags linuxEnv).trace, ev.step = some Step.packageDeb) ∧
    (∃ ev ∈ (run releaseFlags linuxEnv).trace, ev.step = some Step.packageRpm) :=
  have h := deb_iff_linux_and_rpm_iff_flag releaseFlags linuxEnv "/tmp/stage" rfl
    (by decide) (by decide) (by decide)
  ⟨h.1.2 rfl, h.2.2 ⟨rfl, rfl, Event.packageDeb "/tmp/stage" "1.2.3" "linux" "amd64" "" none,
    by decide, rfl, rfl⟩⟩

/-! ## Missing parameters -/

/-- C6, as stated, fails: `--version` is empty and a tool is missing, and `run` fails
with the error of the tool check, which is neither of the missing-parameter
messages. -/
theorem missing_version_reports_tool_error :
    noVersionFlags.fVersion = "" ∧
    (run noVersionFlags noToolsEnv).err = some "fpm not found" ∧
    (run noVersionFlags noToolsEnv).err ≠ some "You must set --version." ∧
    (run noVersionFlags noToolsEnv).err ≠ some "You must set --commit." := by
  decide

/-- C6, amended: with `--version` or `--commit` empty, `run` fails and calls nothing
but the tool check and `getSettings` (no build, no packaging step, no removal); when
the tool check succeeds, the error is "You must set --version." if the version is
empty and "You must set --commit." otherwise; when the tool check fails, the error is
the error of the tool check. -/
theorem missing_parameter_stops_before_build (f : Flags) (env : Env)
    (hmissing : f.fVersion = "" ∨ f.fCommit = "") :
    (run f env).err ≠ none ∧
    (∀ ev ∈ (run f env).trace,
      ev.step = some Step.checkForTools ∨ ev.step = some Step.getSettings) ∧
    (env.checkForTools = none →
      (run f env).err =
        some (if f.fVersion = "" then "You must set --version."
          else "You must set --commit.")) ∧
    (∀ e, env.checkForTools = some e → (run f env).err = some e) := by
  have hs := getSettings_err_of_missing f env hmissing
  unfold run
  simp only [hs]
  split <;> simp_all [Event.step]

/-- Witness for C6, amended: without `--version`, a run with every tool present is the
tool check and the failed `getSettings` and its error names the flag, and a run with
a tool missing returns the error of the tool check. -/
theorem missing_parameter_stops_before_build_witness :
    (run noVersionFlags linuxEnv).err = some "You must set --version." ∧
    (run noVersionFlags linuxEnv).trace.length = 2 ∧
    (run noVersionFlags noToolsEnv).err = some "fpm not found" :=
  ⟨(missing_parameter_stops_before_build noVersionFlags linuxEnv (Or.inl rfl)).2.2.1 rfl,
    by decide,
    (missing_parameter_stops_before_build noVersionFlags noToolsEnv (Or.inl rfl)).2.2.2
      "fpm not found" rfl⟩

/-! ## The text of the surfaced error -/

/-- C9, as stated, fails: the tool check fails with "fpm not found" and `run` surfaces
exactly that text, which is not the name of the step followed by the text, whatever
stands between the two. -/
theorem tool_check_error_has_no_step_name :
    Event.checkForTools (some "fpm not found") ∈ (run releaseFlags noToolsEnv).trace ∧
    (run releaseFlags noToolsEnv).err = some "fpm not found" ∧
    ¬ ∃ sep : String,
      (run releaseFlags noToolsEnv).err
        = some (Step.name Step.checkForTools ++ sep ++ "fpm not found") := by
  refine ⟨by decide, by decide, ?_⟩
  rintro ⟨sep, h⟩
  have h1 : (run releaseFlags noToolsEnv).err = some "fpm not found" := by decide
  rw [h1] at h
  have h2 := congrArg String.length (Option.some.inj h)
  simp only [String.length_append, Step.name] at h2
  have h3 : "fpm not found".length = 13 := by decide
  have h4 : "checkForTools".length = 13 := by decide
  omega

/-- C9, amended: when a call of `buildBinaries`, `packageTarball` or `packageDeb`
returns the error `e`, `run` surfaces the name of that step, then ": ", then `e`
unmodified; when `checkForTools` or `getSettings` returns `e`, `run` surfaces `e`
unmodified, without a step name. -/
theorem surfaced_error_text (f : Flags) (env : Env) (ev : Event) (s : Step) (e : String)
    (hcall : ev ∈ (run f env).trace) (hstep : ev.step = some s) (herr : ev.err = some e) :
    ((s = Step.buildBinaries ∨ s = Step.packageTarball ∨ s = Step.packageDeb) →
      (run f env).err = some (s.name ++ ": " ++ e)) ∧
    ((s = Step.checkForTools ∨ s = Step.getSettings) → (run f env).err = some e) := by
  have key : ∀ ev ∈ (run f env).trace, ∀ s e, ev.step = some s → ev.err = some e →
      ((s = Step.buildBinaries ∨ s = Step.packageTarball ∨ s = Step.packageDeb →
        (run f env).err = some (s.name ++ ": " ++ e)) ∧
      (s = Step.checkForTools ∨ s = Step.getSettings → (run f env).err = some e)) := by
    unfold run packageAll
    simp only []
    repeat' split
    all_goals simp_all [Event.step, Event.err, Step.name]
  exact key ev hcall s e hstep herr

/-- Witness for C9, amended: a failed tarball step is surfaced as
"packageTarball: " followed by its text. -/
theorem surfaced_error_text_witness :
    (run releaseFlags
      { linuxEnv with packageTarball := fun _ _ _ _ _ => some "exit status 2" }).err
      = some "packageTarball: exit status 2" :=
  (surfaced_error_text releaseFlags
    { linuxEnv with packageTarball := fun _ _ _ _ _ => some "exit status 2" }
    (Event.packageTarball "/tmp/stage" "1.2.3" "linux" "amd64" "/home/user"
      (some "exit status 2"))
    Step.packageTarball "exit status 2" (by decide) rfl rfl).1 (Or.inr (Or.inl rfl))

/-! ## The exit status -/

/-- C10: the exit status is 0 exactly when `run` returned no error, which is exactly
when every call of the run succeeded; when `run` returns an error, `main` writes its
text, ended by a newline, to the error stream and exits with status 1. -/
theorem exit_status_zero_iff_no_error (f : Flags) (env : Env) :
    ((main f env).exitStatus = 0 ↔ (run f env).err = none) ∧
    ((run f env).err = none ↔ ∀ ev ∈ (run f env).trace, ev.err = none) ∧
    (∀ e, (run f env).err = some e →
      (main f env).stderr = e ++ "\n" ∧ (main f env).exitStatus = 1) := by
  refine ⟨?_, ?_, ?_⟩
  · unfold main
    split <;> simp_all
  · unfold run packageAll
    simp only []
    repeat' split
    all_goals simp_all [Event.err]
  · intro e he
    unfold main
    simp [he]

/-- Witness for C10: a run whose .rpm step fails writes one line to the error stream
and exits with status 1. -/
theorem exit_status_zero_iff_no_error_witness :
    (main releaseFlags (rpmFailsEnv "exit status 1")).stderr
      = "packageDeb: exit status 1" ++ "\n" ∧
    (main releaseFlags (rpmFailsEnv "exit status 1")).exitStatus = 1 :=
  (exit_status_zero_iff_no_error releaseFlags (rpmFailsEnv "exit status 1")).2.2
    "packageDeb: exit status 1" (by decide)

/-! ## Defects of `run` -/

/-- C3 on the code: with `--output_dir` omitted, `getSettings` resolves the output
directory to the working directory and the tarball step is given it, while the .deb
and .rpm steps are given the empty value of the flag. -/
theorem deb_and_rpm_get_unresolved_output_dir :
    releaseFlags.fOutputDir = "" ∧
    (getSettings releaseFlags linuxEnv).outputDir = "/home/user" ∧
    (run releaseFlags linuxEnv).trace =
      [Event.checkForTools none,
       Event.getSettings ⟨"1.2.3", "abc123", "linux", "amd64", "/home/user", none⟩,
       Event.buildBinaries "1.2.3" "abc123" "linux" "amd64" "/tmp/stage" none,
       Event.packageTarball "/tmp/stage" "1.2.3" "linux" "amd64" "/home/user" none,
       Event.packageDeb "/tmp/stage" "1.2.3" "linux" "amd64" "" none,
       Event.packageRpm "/tmp/stage" "1.2.3" "linux" "amd64" "" none,
       Event.removeAll "/tmp/stage"] := by
  decide

/-- C4 on the code: on linux with `--rpm`, for every diagnostic `e`, a run whose .rpm
step fails with `e` and a run whose .deb step fails with `e` return the same error,
"packageDeb: " followed by `e`. -/
theorem rpm_failure_reported_as_deb_failure (e : String) :
    Event.packageRpm "/tmp/stage" "1.2.3" "linux" "amd64" "" (some e)
      ∈ (run releaseFlags (rpmFailsEnv e)).trace ∧
    Event.packageDeb "/tmp/stage" "1.2.3" "linux" "amd64" "" (some e)
      ∈ (run releaseFlags (debFailsEnv e)).trace ∧
    (run releaseFlags (rpmFailsEnv e)).err = some ("packageDeb: " ++ e) ∧
    (run releaseFlags (debFailsEnv e)).err = some ("packageDeb: " ++ e) := by
  simp [run, packageAll, getSettings, releaseFlags, rpmFailsEnv, debFailsEnv, linuxEnv]

end BuildRelease
